import Mathlib

/-!
Shallow embedding of `src/app.py` (openai_simple_outpainting).

Modelling choices.  Image files live in an association list from path to the
decoded image (width, height, pixel mode); `os.path.exists` on an image path
is a successful lookup and `PIL.Image.open` returns the stored image.
Directories are a separate list of folder paths.  The network is part of the
environment: `requests.get url` yields the fixed status/content pair
`http url`, and the OpenAI `create_edit` call yields `apiResponse`
(`none` models a raised API error, `some urls` the list of result URLs in
the response's `data` field).  Side effects — folder creation, the edit
network call, downloads, file writes, printed messages — are recorded in an
event trace.  Python exceptions are `Except Err`; a raised exception
propagates to the caller exactly as in the source.
-/

set_option autoImplicit false

namespace Outpaint

/-- A decoded image: pixel dimensions plus PIL pixel mode ("RGBA" = 4-channel
RGB + alpha). -/
structure Img where
  width : Nat
  height : Nat
  mode : String
  deriving DecidableEq, Repr

/-- `PIL.Image.size`: the (width, height) pair. -/
def Img.size (i : Img) : Nat × Nat := (i.width, i.height)

/-- Exceptions raised by the script. -/
inductive Err where
  | valueError (msg : String)
  | fileNotFound (path : String)
  | httpStatusError (code : Nat)
  | apiError
  deriving DecidableEq, Repr

/-- `str(e)`: the human-readable text of an exception, as interpolated by the
script's `print` calls. -/
def Err.message : Err → String
  | Err.valueError m => m
  | Err.fileNotFound p => p ++ "을 열 수 없습니다"
  | Err.httpStatusError c => toString c ++ " Error"
  | Err.apiError => "API error"

/-- Observable side effects of a run, in order. -/
inductive Ev where
  | createFolder (path : String)
  | editCall
  | download (url : String) (filename : String)
  | fileWrite (path : String)
  | msg (text : String)
  deriving DecidableEq, Repr

/-- Network events: the OpenAI edit call and HTTP downloads. -/
def netEv : Ev → Bool
  | Ev.editCall => true
  | Ev.download _ _ => true
  | _ => false

/-- The (url, destination) pairs of the download events of a trace. -/
def downloadsOf (t : List Ev) : List (String × String) :=
  t.filterMap fun e =>
    match e with
    | Ev.download u f => some (u, f)
    | _ => none

/-- The image files on disk: path ↦ decoded image, most recent write first. -/
abbrev FS := List (String × Img)

def fsLookup : FS → String → Option Img
  | [], _ => none
  | (q, i) :: rest, p => if q = p then some i else fsLookup rest p

def fsWrite (fs : FS) (p : String) (i : Img) : FS := (p, i) :: fs

/-- The `config` dict of the script. -/
structure Config where
  src_image_name : String
  mask_image_name : String
  number_of_images : Nat
  prompt : String
  src_folder_path : String
  rgba_folder_path : String
  dest_folder_path : String

def config : Config :=
  { src_image_name := "src.png"
    mask_image_name := "mask.png"
    number_of_images := 1
    prompt := "high mountain"
    src_folder_path := "./src"
    rgba_folder_path := "./rgba"
    dest_folder_path := "./dest" }

/-- The f-string paths built by the script. -/
def srcImagePath : String := config.src_folder_path ++ "/" ++ config.src_image_name

def maskImagePath : String := config.src_folder_path ++ "/" ++ config.mask_image_name

def rgbaSrcImagePath : String := config.rgba_folder_path ++ "/_" ++ config.src_image_name

def rgbaMaskImagePath : String := config.rgba_folder_path ++ "/_" ++ config.mask_image_name

def outputFilename : String := config.dest_folder_path ++ "/outputimage.png"

/-- The mutable world the script acts on: the credential
(`openai.api_key = os.getenv("OPENAI_API_KEY")`), the network, the image
files and the existing folders. -/
structure St where
  apiKey : Option String
  http : String → Nat × Img
  apiResponse : Option (List String)
  fs : FS
  folders : List String

/-- Python truthiness of `openai.api_key`: `not openai.api_key` holds when the
variable is unset or the empty string. -/
def keyTruthy : Option String → Bool
  | none => false
  | some s => !s.isEmpty

/-- `convert_image_to_rgba(image_path, output_path)`: open, convert to RGBA,
save to the output path; on failure print a diagnostic and re-raise. -/
def convert_image_to_rgba (s : St) (image_path output_path : String) :
    List Ev × St × Except Err Unit :=
  match fsLookup s.fs image_path with
  | some img =>
      ([Ev.fileWrite output_path,
        Ev.msg (image_path ++ "가 RGBA로 변환되었습니다.")],
       { s with fs := fsWrite s.fs output_path { img with mode := "RGBA" } },
       Except.ok ())
  | none =>
      ([Ev.msg (image_path ++ "를 RGBA로 변환하는 중 오류 발생")],
       s, Except.error (Err.fileNotFound image_path))

/-- `download_and_save_image(url, filename)`: one blocking GET;
`raise_for_status` raises exactly on 4xx/5xx statuses, and only after it
passes is the destination file opened and overwritten. -/
def download_and_save_image (s : St) (url filename : String) :
    List Ev × St × Except Err Unit :=
  let response := s.http url
  if 400 ≤ response.1 ∧ response.1 < 600 then
    ([Ev.download url filename,
      Ev.msg (url ++ "를 다운로드하는 중 오류 발생")],
     s, Except.error (Err.httpStatusError response.1))
  else
    ([Ev.download url filename, Ev.fileWrite filename,
      Ev.msg (url ++ "에서 이미지가 성공적으로 다운로드되었습니다.")],
     { s with fs := fsWrite s.fs filename response.2 },
     Except.ok ())

/-- `check_and_create_folder(folder_path)`: `os.makedirs` only when the folder
does not already exist. -/
def check_and_create_folder (s : St) (folder_path : String) : List Ev × St :=
  if folder_path ∈ s.folders then ([], s)
  else
    ([Ev.createFolder folder_path,
      Ev.msg (folder_path ++ " 폴더가 생성되었습니다.")],
     { s with folders := folder_path :: s.folders })

/-- `process_images_with_openai(src_image, mask_image, prompt, n)`: the two
`open(..., "rb")` argument expressions are evaluated before the network call,
so a missing file raises without any call being made; then the single
blocking `create_edit` call either raises or returns `response["data"]`. -/
def process_images_with_openai (s : St) (src_image mask_image : String)
    (prompt : String) (n : Nat) : List Ev × St × Except Err (List String) :=
  let pre := [Ev.msg "이미지를 OpenAI로 전송 중... (몇 초 정도 소요됩니다)"]
  match fsLookup s.fs src_image, fsLookup s.fs mask_image with
  | some _, some _ =>
      match s.apiResponse with
      | some urls => (pre ++ [Ev.editCall], s, Except.ok urls)
      | none =>
          (pre ++ [Ev.editCall,
            Ev.msg "이미지를 OpenAI로 전송하는 중 오류 발생"],
           s, Except.error Err.apiError)
  | none, _ =>
      (pre ++ [Ev.msg "이미지를 OpenAI로 전송하는 중 오류 발생"],
       s, Except.error (Err.fileNotFound src_image))
  | some _, none =>
      (pre ++ [Ev.msg "이미지를 OpenAI로 전송하는 중 오류 발생"],
       s, Except.error (Err.fileNotFound mask_image))

/-- `validate_environment()`: key check, then existence check of both image
files, then folder creation, then the dimension comparison.  Folder creation
does not touch image files, so the `Image.open` calls after it read the same
filesystem as the existence check; the existence check and the opens are
therefore modelled by one lookup each. -/
def validate_environment (s : St) : List Ev × St × Except Err Unit :=
  if keyTruthy s.apiKey = false then
    ([], s,
     Except.error (Err.valueError "OpenAI API 키가 .env 파일에서 찾을 수 없습니다."))
  else
    match fsLookup s.fs srcImagePath, fsLookup s.fs maskImagePath with
    | some src_image, some mask_image =>
        let r1 := check_and_create_folder s config.rgba_folder_path
        let r2 := check_and_create_folder r1.2 config.dest_folder_path
        if src_image.size ≠ mask_image.size then
          (r1.1 ++ r2.1, r2.2,
           Except.error (Err.valueError "소스 이미지와 마스크 이미지의 해상도가 다릅니다."))
        else
          (r1.1 ++ r2.1, r2.2, Except.ok ())
    | _, _ =>
        ([], s,
         Except.error (Err.valueError "소스 이미지 또는 마스크 이미지가 존재하지 않습니다."))

/-- `resize_image(image_path, width, height)`: open, non-aspect-preserving
resize to exactly (width, height), save in place. -/
def resize_image (s : St) (image_path : String) (width height : Nat) :
    List Ev × St × Except Err Unit :=
  match fsLookup s.fs image_path with
  | some img =>
      ([Ev.fileWrite image_path,
        Ev.msg ("이미지가 " ++ toString width ++ "x" ++ toString height ++
          "로 리사이즈되었습니다.")],
       { s with fs := fsWrite s.fs image_path { img with width := width, height := height } },
       Except.ok ())
  | none =>
      ([Ev.msg "이미지를 리사이즈하는 중 오류 발생"],
       s, Except.error (Err.fileNotFound image_path))

/-- The `for idx, data in enumerate(images_data)` loop of `image_processing`:
download to the fixed output filename, then resize it to 2048x1024; any raise
aborts the rest of the loop. -/
def fetch_loop (s : St) (urls : List String) (idx : Nat) :
    List Ev × St × Except Err Unit :=
  match urls with
  | [] => ([], s, Except.ok ())
  | url :: rest =>
      let d := download_and_save_image s url outputFilename
      match d.2.2 with
      | Except.error e => (d.1, d.2.1, Except.error e)
      | Except.ok _ =>
          let t1 := d.1 ++
            [Ev.msg (toString (idx + 1) ++ "번째 이미지가 성공적으로 다운로드되었습니다.")]
          let r := resize_image d.2.1 outputFilename 2048 1024
          match r.2.2 with
          | Except.error e => (t1 ++ r.1, r.2.1, Except.error e)
          | Except.ok _ =>
              let k := fetch_loop r.2.1 rest (idx + 1)
              (t1 ++ r.1 ++ k.1, k.2.1, k.2.2)

/-- The body of `image_processing`'s `try` block: validate, convert both
images, call the API, then fetch and resize each result.  Any raise aborts
the remaining steps and propagates. -/
def image_processing_body (s : St) : List Ev × St × Except Err Unit :=
  let v := validate_environment s
  match v.2.2 with
  | Except.error e => (v.1, v.2.1, Except.error e)
  | Except.ok _ =>
      let t0 := v.1 ++ [Ev.msg "환경이 성공적으로 검증되었습니다."]
      let c1 := convert_image_to_rgba v.2.1 srcImagePath rgbaSrcImagePath
      match c1.2.2 with
      | Except.error e => (t0 ++ c1.1, c1.2.1, Except.error e)
      | Except.ok _ =>
          let c2 := convert_image_to_rgba c1.2.1 maskImagePath rgbaMaskImagePath
          match c2.2.2 with
          | Except.error e => (t0 ++ c1.1 ++ c2.1, c2.2.1, Except.error e)
          | Except.ok _ =>
              let pr := process_images_with_openai c2.2.1 rgbaSrcImagePath
                rgbaMaskImagePath config.prompt config.number_of_images
              match pr.2.2 with
              | Except.error e =>
                  (t0 ++ c1.1 ++ c2.1 ++ pr.1, pr.2.1, Except.error e)
              | Except.ok images_data =>
                  let fl := fetch_loop pr.2.1 images_data 0
                  (t0 ++ c1.1 ++ c2.1 ++ pr.1 ++ fl.1, fl.2.1, fl.2.2)

/-- `image_processing()`: the whole body runs under one `try`; the `except`
prints `오류: {e}` and returns normally, so the function never propagates an
exception to its caller. -/
def image_processing (s : St) : List Ev × St :=
  let b := image_processing_body s
  match b.2.2 with
  | Except.ok _ => (b.1, b.2.1)
  | Except.error e => (b.1 ++ [Ev.msg ("오류: " ++ Err.message e)], b.2.1)

/-- `str.lower()` over the character list. -/
def lowerString (a : String) : String := ⟨a.data.map Char.toLower⟩

/-- `str.strip()`: drop leading and trailing whitespace. -/
def stripString (a : String) : String :=
  ⟨((a.data.dropWhile Char.isWhitespace).reverse.dropWhile Char.isWhitespace).reverse⟩

/-- `answer.strip().lower()` as applied to each prompt answer. -/
def normalize_answer (a : String) : String := lowerString (stripString a)

/-- `ask_user()`: `while True`, read an answer, `.strip().lower()` it; on
`"y"` run `image_processing()` and loop back to the prompt, otherwise print
the goodbye message and break.  The list holds the successive answers typed
by the user. -/
def ask_user (s : St) (inputs : List String) : List Ev × St :=
  match inputs with
  | [] => ([], s)
  | answer :: rest =>
      if normalize_answer answer = "y" then
        let p := image_processing s
        let k := ask_user p.2 rest
        (p.1 ++ k.1, k.2)
      else
        ([Ev.msg "프로그램이 종료되었습니다."], s)

/-- A sample 512x512 3-channel source image. -/
def okImg : Img := { width := 512, height := 512, mode := "RGB" }

/-- A sample 512x512 4-channel mask image. -/
def okMask : Img := { width := 512, height := 512, mode := "RGBA" }

/-- The image decoded from a successful download body. -/
def dlImg : Img := { width := 1024, height := 1024, mode := "RGBA" }

/-- A world in which every step of the run succeeds. -/
def envOk : St :=
  { apiKey := some "sk-test"
    http := fun _ => (200, dlImg)
    apiResponse := some ["https://r1"]
    fs := [(srcImagePath, okImg), (maskImagePath, okMask)]
    folders := [] }

/-- The same world with the credential unset. -/
def envNoKey : St := { envOk with apiKey := none }

/-- The same world with a 256x256 mask: dimensions mismatch. -/
def envMismatch : St :=
  { envOk with
    fs := [(srcImagePath, okImg),
           (maskImagePath, { width := 256, height := 256, mode := "L" })] }

/-- The same world in which every download answers HTTP 404. -/
def envHttpFail : St := { envOk with http := fun _ => (404, dlImg) }

/-! ### Basic lemmas about the filesystem and folder model -/

theorem fsLookup_write_self (fs : FS) (p : String) (i : Img) :
    fsLookup (fsWrite fs p i) p = some i := by
  simp [fsWrite, fsLookup]

theorem fsLookup_write_ne (fs : FS) (p q : String) (i : Img) (h : p ≠ q) :
    fsLookup (fsWrite fs p i) q = fsLookup fs q := by
  simp [fsWrite, fsLookup, h]

theorem caf_fs (s : St) (p : String) :
    (check_and_create_folder s p).2.fs = s.fs := by
  unfold check_and_create_folder
  split <;> rfl

theorem caf_http (s : St) (p : String) :
    (check_and_create_folder s p).2.http = s.http := by
  unfold check_and_create_folder
  split <;> rfl

theorem caf_apiResponse (s : St) (p : String) :
    (check_and_create_folder s p).2.apiResponse = s.apiResponse := by
  unfold check_and_create_folder
  split <;> rfl

theorem caf_mem_self (s : St) (p : String) :
    p ∈ (check_and_create_folder s p).2.folders := by
  by_cases h : p ∈ s.folders <;> simp [check_and_create_folder, h]

theorem caf_mem_mono (s : St) (p q : String) (hq : q ∈ s.folders) :
    q ∈ (check_and_create_folder s p).2.folders := by
  by_cases h : p ∈ s.folders <;> simp [check_and_create_folder, h, hq]

theorem caf_netEv (s : St) (p : String) :
    ∀ e ∈ (check_and_create_folder s p).1, netEv e = false := by
  by_cases h : p ∈ s.folders <;> simp [check_and_create_folder, h, netEv]

theorem caf_downloads (s : St) (p : String) :
    downloadsOf (check_and_create_folder s p).1 = [] := by
  by_cases h : p ∈ s.folders <;> simp [check_and_create_folder, h, downloadsOf]

theorem downloadsOf_append (a b : List Ev) :
    downloadsOf (a ++ b) = downloadsOf a ++ downloadsOf b := by
  simp [downloadsOf]

theorem downloadsOf_nil : downloadsOf [] = [] := rfl

theorem downloadsOf_cons_download (u f : String) (t : List Ev) :
    downloadsOf (Ev.download u f :: t) = (u, f) :: downloadsOf t := by
  simp [downloadsOf]

theorem downloadsOf_cons_createFolder (p : String) (t : List Ev) :
    downloadsOf (Ev.createFolder p :: t) = downloadsOf t := by
  simp [downloadsOf]

theorem downloadsOf_cons_editCall (t : List Ev) :
    downloadsOf (Ev.editCall :: t) = downloadsOf t := by
  simp [downloadsOf]

theorem downloadsOf_cons_fileWrite (p : String) (t : List Ev) :
    downloadsOf (Ev.fileWrite p :: t) = downloadsOf t := by
  simp [downloadsOf]

theorem downloadsOf_cons_msg (m : String) (t : List Ev) :
    downloadsOf (Ev.msg m :: t) = downloadsOf t := by
  simp [downloadsOf]

/-! ### Characterization of each step -/

theorem validate_nokey (s : St) (hk : keyTruthy s.apiKey = false) :
    validate_environment s =
      ([], s,
       Except.error (Err.valueError "OpenAI API 키가 .env 파일에서 찾을 수 없습니다.")) := by
  unfold validate_environment
  rw [hk]
  simp

theorem validate_mismatch_eq (s : St) (si mi : Img)
    (hk : keyTruthy s.apiKey = true)
    (hs : fsLookup s.fs srcImagePath = some si)
    (hm : fsLookup s.fs maskImagePath = some mi)
    (hsz : si.size ≠ mi.size) :
    validate_environment s =
      ((check_and_create_folder s config.rgba_folder_path).1 ++
         (check_and_create_folder (check_and_create_folder s config.rgba_folder_path).2
           config.dest_folder_path).1,
       (check_and_create_folder (check_and_create_folder s config.rgba_folder_path).2
         config.dest_folder_path).2,
       Except.error (Err.valueError "소스 이미지와 마스크 이미지의 해상도가 다릅니다.")) := by
  unfold validate_environment
  rw [hk]
  simp [hs, hm, hsz]

theorem validate_ok_eq (s : St) (si mi : Img)
    (hk : keyTruthy s.apiKey = true)
    (hs : fsLookup s.fs srcImagePath = some si)
    (hm : fsLookup s.fs maskImagePath = some mi)
    (hsz : si.size = mi.size) :
    validate_environment s =
      ((check_and_create_folder s config.rgba_folder_path).1 ++
         (check_and_create_folder (check_and_create_folder s config.rgba_folder_path).2
           config.dest_folder_path).1,
       (check_and_create_folder (check_and_create_folder s config.rgba_folder_path).2
         config.dest_folder_path).2,
       Except.ok ()) := by
  unfold validate_environment
  rw [hk]
  simp [hs, hm, hsz]

theorem convert_ok (s : St) (ip op : String) (img : Img)
    (h : fsLookup s.fs ip = some img) :
    convert_image_to_rgba s ip op =
      ([Ev.fileWrite op, Ev.msg (ip ++ "가 RGBA로 변환되었습니다.")],
       { s with fs := fsWrite s.fs op { img with mode := "RGBA" } },
       Except.ok ()) := by
  unfold convert_image_to_rgba
  rw [h]

theorem process_ok (s : St) (a b p : String) (n : Nat) (ia ib : Img)
    (urls : List String)
    (ha : fsLookup s.fs a = some ia) (hb : fsLookup s.fs b = some ib)
    (hr : s.apiResponse = some urls) :
    process_images_with_openai s a b p n =
      ([Ev.msg "이미지를 OpenAI로 전송 중... (몇 초 정도 소요됩니다)", Ev.editCall],
       s, Except.ok urls) := by
  unfold process_images_with_openai
  rw [ha, hb, hr]
  rfl

theorem download_ok (s : St) (url fn : String) (h : (s.http url).1 < 400) :
    download_and_save_image s url fn =
      ([Ev.download url fn, Ev.fileWrite fn,
        Ev.msg (url ++ "에서 이미지가 성공적으로 다운로드되었습니다.")],
       { s with fs := fsWrite s.fs fn (s.http url).2 },
       Except.ok ()) := by
  unfold download_and_save_image
  rw [if_neg]
  omega

theorem resize_ok (s : St) (p : String) (w hgt : Nat) (img : Img)
    (h : fsLookup s.fs p = some img) :
    resize_image s p w hgt =
      ([Ev.fileWrite p,
        Ev.msg ("이미지가 " ++ toString w ++ "x" ++ toString hgt ++
          "로 리사이즈되었습니다.")],
       { s with fs := fsWrite s.fs p { img with width := w, height := hgt } },
       Except.ok ()) := by
  unfold resize_image
  rw [h]

/-- Invariant of the download/resize loop: when every requested URL answers
with a success status, the loop succeeds, performs exactly one download per
URL — all to the fixed output filename — writes files only at that filename,
and leaves a 2048x1024 image there whenever at least one URL was fetched. -/
theorem fetch_loop_spec (urls : List String) : ∀ (s : St) (idx : Nat),
    (∀ u ∈ urls, (s.http u).1 < 400) →
    (fetch_loop s urls idx).2.2 = Except.ok () ∧
    (fetch_loop s urls idx).2.1.http = s.http ∧
    downloadsOf (fetch_loop s urls idx).1 = urls.map (fun u => (u, outputFilename)) ∧
    (∀ p, Ev.fileWrite p ∈ (fetch_loop s urls idx).1 → p = outputFilename) ∧
    (urls = [] → (fetch_loop s urls idx).2.1 = s) ∧
    (urls ≠ [] →
      ∃ i, fsLookup (fetch_loop s urls idx).2.1.fs outputFilename = some i ∧
        i.width = 2048 ∧ i.height = 1024) := by
  induction urls with
  | nil =>
      intro s idx h
      simp [fetch_loop, downloadsOf]
  | cons u rest ih =>
      intro s idx h
      have hu : (s.http u).1 < 400 := h u (List.mem_cons_self u rest)
      have hd := download_ok s u outputFilename hu
      have hl1 : fsLookup (fsWrite s.fs outputFilename (s.http u).2) outputFilename =
          some (s.http u).2 := fsLookup_write_self _ _ _
      have hr := resize_ok { s with fs := fsWrite s.fs outputFilename (s.http u).2 }
        outputFilename 2048 1024 (s.http u).2 hl1
      have ih' := ih { s with fs := fsWrite (fsWrite s.fs outputFilename (s.http u).2) outputFilename (Img.mk 2048 1024 (s.http u).2.mode) } (idx + 1) (fun v hv => h v (List.mem_cons_of_mem _ hv))
      obtain ⟨ihok, ihhttp, ihdl, ihwr, ihnil, ihcons⟩ := ih'
      refine ⟨?_, ?_, ?_, ?_, ?_, ?_⟩
      · simp only [fetch_loop, hd, hr]
        exact ihok
      · simp only [fetch_loop, hd, hr]
        exact ihhttp
      · simp only [fetch_loop, hd, hr]
        simp only [downloadsOf_append, downloadsOf_nil, downloadsOf_cons_download,
          downloadsOf_cons_fileWrite, downloadsOf_cons_msg, ihdl]
        simp
      · simp only [fetch_loop, hd, hr]
        intro p hp
        rw [List.mem_append] at hp
        rcases hp with hp | hp
        · simp at hp
          exact hp
        · exact ihwr p hp
      · intro hfalse
        cases hfalse
      · intro _
        simp only [fetch_loop, hd, hr]
        by_cases hre : rest = []
        · subst hre
          refine ⟨Img.mk 2048 1024 (s.http u).2.mode, ?_, rfl, rfl⟩
          simp [fetch_loop, fsLookup_write_self]
        · exact ihcons hre


/-! ### Claims -/

/-- C1: for every source/mask pair whose pixel dimensions differ, the run
aborts during validation with the dimension error, and the trace of the whole
run contains no network event — neither the remote edit call nor any
download. -/
theorem C1_dimension_mismatch_aborts_before_network (s : St) (si mi : Img)
    (hk : keyTruthy s.apiKey = true)
    (hs : fsLookup s.fs srcImagePath = some si)
    (hm : fsLookup s.fs maskImagePath = some mi)
    (hne : si.size ≠ mi.size) :
    (validate_environment s).2.2 =
      Except.error (Err.valueError "소스 이미지와 마스크 이미지의 해상도가 다릅니다.") ∧
    ∀ e ∈ (image_processing s).1, netEv e = false := by
  have hv := validate_mismatch_eq s si mi hk hs hm hne
  constructor
  · rw [hv]
  · intro e he
    simp only [image_processing, image_processing_body, hv, List.mem_append] at he
    rcases he with (he | he) | he
    · exact caf_netEv _ _ e he
    · exact caf_netEv _ _ e he
    · simp only [List.mem_singleton] at he
      subst he
      rfl

/-- Witness for C1 at the concrete mismatched world. -/
theorem C1_witness :
    (validate_environment envMismatch).2.2 =
      Except.error (Err.valueError "소스 이미지와 마스크 이미지의 해상도가 다릅니다.") ∧
    ∀ e ∈ (image_processing envMismatch).1, netEv e = false :=
  C1_dimension_mismatch_aborts_before_network envMismatch okImg
    (Img.mk 256 256 "L") (by decide) (by decide) (by decide) (by decide)

/-- C2: when a run reaches the download phase with result URLs `urls`
(`urls.length ≤ N` requested variants) and every download succeeds, the trace
holds exactly one download per result — every one to the single destination
`./dest/outputimage.png`, with no per-index suffix — so at most `N`
download/resize cycles occur, each overwriting the same file, and the
destination ends up holding that one 2048x1024 output file. -/
theorem C2_downloads_share_single_destination (s : St) (si mi : Img)
    (urls : List String)
    (hk : keyTruthy s.apiKey = true)
    (hs : fsLookup s.fs srcImagePath = some si)
    (hm : fsLookup s.fs maskImagePath = some mi)
    (hsz : si.size = mi.size)
    (hapi : s.apiResponse = some urls)
    (hn : urls.length ≤ config.number_of_images)
    (hok : ∀ u ∈ urls, (s.http u).1 < 400) :
    downloadsOf (image_processing s).1 = urls.map (fun u => (u, outputFilename)) ∧
    (downloadsOf (image_processing s).1).length ≤ config.number_of_images ∧
    (urls ≠ [] → ∃ i, fsLookup (image_processing s).2.fs outputFilename = some i ∧
      i.width = 2048 ∧ i.height = 1024) := by
  have hv := validate_ok_eq s si mi hk hs hm hsz
  set S2 := (check_and_create_folder (check_and_create_folder s config.rgba_folder_path).2
    config.dest_folder_path).2 with hS2
  have hS2fs : S2.fs = s.fs := by rw [hS2, caf_fs, caf_fs]
  have hS2http : S2.http = s.http := by rw [hS2, caf_http, caf_http]
  have hS2api : S2.apiResponse = s.apiResponse := by
    rw [hS2, caf_apiResponse, caf_apiResponse]
  have hc1 := convert_ok S2 srcImagePath rgbaSrcImagePath si (by rw [hS2fs]; exact hs)
  set S3 := { S2 with fs := fsWrite S2.fs rgbaSrcImagePath (Img.mk si.width si.height "RGBA") } with hS3
  have hS3m : fsLookup S3.fs maskImagePath = some mi := by
    simp only [hS3]
    rw [fsLookup_write_ne _ _ _ _ (by decide), hS2fs]
    exact hm
  have hc2 := convert_ok S3 maskImagePath rgbaMaskImagePath mi hS3m
  set S4 := { S3 with fs := fsWrite S3.fs rgbaMaskImagePath (Img.mk mi.width mi.height "RGBA") } with hS4
  have hS4a : fsLookup S4.fs rgbaSrcImagePath = some (Img.mk si.width si.height "RGBA") := by
    simp only [hS4]
    rw [fsLookup_write_ne _ _ _ _ (by decide)]
    exact fsLookup_write_self _ _ _
  have hS4b : fsLookup S4.fs rgbaMaskImagePath = some (Img.mk mi.width mi.height "RGBA") := by
    simp only [hS4]
    exact fsLookup_write_self _ _ _
  have hS4api : S4.apiResponse = some urls := by
    simp only [hS4, hS3]
    rw [hS2api]
    exact hapi
  have hS4http : S4.http = s.http := by
    simp only [hS4, hS3]
    exact hS2http
  have hpr := process_ok S4 rgbaSrcImagePath rgbaMaskImagePath config.prompt
    config.number_of_images (Img.mk si.width si.height "RGBA")
    (Img.mk mi.width mi.height "RGBA") urls hS4a hS4b hS4api
  have hfl := fetch_loop_spec urls S4 0 (by intro v hv'; rw [hS4http]; exact hok v hv')
  obtain ⟨flok, flhttp, fldl, flwr, flnil, flcons⟩ := hfl
  have hD : downloadsOf (image_processing s).1 = urls.map (fun u => (u, outputFilename)) := by
    simp only [image_processing, image_processing_body, hv, hc1, hc2, hpr, flok]
    simp only [downloadsOf_append, caf_downloads, downloadsOf_cons_fileWrite,
      downloadsOf_cons_msg, downloadsOf_cons_editCall, downloadsOf_nil, fldl]
    simp
  refine ⟨hD, ?_, ?_⟩
  · rw [hD, List.length_map]
    exact hn
  · intro hne
    have hstate : (image_processing s).2 = (fetch_loop S4 urls 0).2.1 := by
      simp only [image_processing, image_processing_body, hv, hc1, hc2, hpr, flok]
    rw [hstate]
    exact flcons hne

/-- Witness for C2 at the concrete all-success world with one result URL. -/
theorem C2_witness :
    downloadsOf (image_processing envOk).1 =
      (["https://r1"] : List String).map (fun u => (u, outputFilename)) ∧
    (downloadsOf (image_processing envOk).1).length ≤ config.number_of_images ∧
    ((["https://r1"] : List String) ≠ [] →
      ∃ i, fsLookup (image_processing envOk).2.fs outputFilename = some i ∧
        i.width = 2048 ∧ i.height = 1024) :=
  C2_downloads_share_single_destination envOk okImg okMask ["https://r1"]
    (by decide) (by decide) (by decide) (by decide) (by decide) (by decide) (by decide)

/-- C3: any image that opens successfully — whatever its pixel mode — is
converted and written to the output path with 4-channel RGBA pixel mode. -/
theorem C3_normalizer_always_writes_rgba (s : St) (image_path output_path : String)
    (img : Img) (h : fsLookup s.fs image_path = some img) :
    (convert_image_to_rgba s image_path output_path).2.2 = Except.ok () ∧
    ∃ out, fsLookup (convert_image_to_rgba s image_path output_path).2.1.fs output_path =
      some out ∧ out.mode = "RGBA" := by
  rw [convert_ok s image_path output_path img h]
  exact ⟨rfl, _, fsLookup_write_self _ _ _, rfl⟩

/-- Witness for C3 at a concrete 3-channel input. -/
theorem C3_witness :
    (convert_image_to_rgba envOk srcImagePath rgbaSrcImagePath).2.2 = Except.ok () ∧
    ∃ out, fsLookup (convert_image_to_rgba envOk srcImagePath rgbaSrcImagePath).2.1.fs
      rgbaSrcImagePath = some out ∧ out.mode = "RGBA" :=
  C3_normalizer_always_writes_rgba envOk srcImagePath rgbaSrcImagePath okImg (by decide)

/-- C4: with an absent or empty credential, validation raises immediately;
the run's only effect is the printed error message and the world is returned
unchanged — no folder is created, no normalized file is written. -/
theorem C4_missing_credential_fails_before_side_effects (s : St)
    (hk : keyTruthy s.apiKey = false) :
    (validate_environment s).2.2 =
      Except.error (Err.valueError "OpenAI API 키가 .env 파일에서 찾을 수 없습니다.") ∧
    image_processing s =
      ([Ev.msg ("오류: " ++
         Err.message (Err.valueError "OpenAI API 키가 .env 파일에서 찾을 수 없습니다."))], s) := by
  have hv := validate_nokey s hk
  constructor
  · rw [hv]
  · simp only [image_processing, image_processing_body, hv]
    simp

/-- Witness for C4 at the concrete credential-free world. -/
theorem C4_witness :
    (validate_environment envNoKey).2.2 =
      Except.error (Err.valueError "OpenAI API 키가 .env 파일에서 찾을 수 없습니다.") ∧
    image_processing envNoKey =
      ([Ev.msg ("오류: " ++
         Err.message (Err.valueError "OpenAI API 키가 .env 파일에서 찾을 수 없습니다."))], envNoKey) :=
  C4_missing_credential_fails_before_side_effects envNoKey rfl

/-- C5: whatever error any step of the body raises, `image_processing`
catches it at its top level, appends the human-readable `오류: ...` message,
and returns normally (its result type carries no exception). -/
theorem C5_all_errors_caught_at_top_level (s : St) (e : Err)
    (h : (image_processing_body s).2.2 = Except.error e) :
    image_processing s =
      ((image_processing_body s).1 ++ [Ev.msg ("오류: " ++ Err.message e)],
       (image_processing_body s).2.1) := by
  simp only [image_processing, h]

/-- Witness for C5 at the concrete credential-free world. -/
theorem C5_witness :
    image_processing envNoKey =
      ((image_processing_body envNoKey).1 ++
        [Ev.msg ("오류: " ++
          Err.message (Err.valueError "OpenAI API 키가 .env 파일에서 찾을 수 없습니다."))],
       (image_processing_body envNoKey).2.1) :=
  C5_all_errors_caught_at_top_level envNoKey
    (Err.valueError "OpenAI API 키가 .env 파일에서 찾을 수 없습니다.") rfl

/-- C6: a download answered with a non-success HTTP status (4xx/5xx) raises,
the state is returned untouched — the destination file is neither created nor
overwritten — and no file-write event occurs. -/
theorem C6_failed_download_leaves_destination_unchanged (s : St)
    (url filename : String)
    (h4 : 400 ≤ (s.http url).1) (h6 : (s.http url).1 < 600) :
    (download_and_save_image s url filename).2.2 =
      Except.error (Err.httpStatusError (s.http url).1) ∧
    (download_and_save_image s url filename).2.1 = s ∧
    ∀ p, Ev.fileWrite p ∉ (download_and_save_image s url filename).1 := by
  have hcond : 400 ≤ (s.http url).1 ∧ (s.http url).1 < 600 := ⟨h4, h6⟩
  simp only [download_and_save_image]
  rw [if_pos hcond]
  refine ⟨rfl, rfl, ?_⟩
  intro p hp
  simp at hp

/-- Witness for C6 at the concrete 404-answering world. -/
theorem C6_witness :
    (download_and_save_image envHttpFail "https://r1" outputFilename).2.2 =
      Except.error (Err.httpStatusError (envHttpFail.http "https://r1").1) ∧
    (download_and_save_image envHttpFail "https://r1" outputFilename).2.1 = envHttpFail ∧
    ∀ p, Ev.fileWrite p ∉ (download_and_save_image envHttpFail "https://r1" outputFilename).1 :=
  C6_failed_download_leaves_destination_unchanged envHttpFail "https://r1" outputFilename
    (by decide) (by decide)

/-- C7: resizing a file that is already 2048x1024 to 2048x1024 succeeds and
stores back exactly the same image — pixel dimensions unchanged. -/
theorem C7_resize_idempotent_on_target_size (s : St) (image_path : String)
    (img : Img) (h : fsLookup s.fs image_path = some img)
    (hw : img.width = 2048) (hh : img.height = 1024) :
    (resize_image s image_path 2048 1024).2.2 = Except.ok () ∧
    fsLookup (resize_image s image_path 2048 1024).2.1.fs image_path = some img := by
  have himg : ({ img with width := 2048, height := 1024 } : Img) = img := by
    cases img
    simp_all
  rw [resize_ok s image_path 2048 1024 img h, himg]
  exact ⟨rfl, fsLookup_write_self _ _ _⟩

/-- A world whose destination file is already at the target resolution. -/
def envResized : St :=
  { envOk with fs := [(outputFilename, Img.mk 2048 1024 "RGBA")] }

/-- Witness for C7 at the concrete already-resized file. -/
theorem C7_witness :
    (resize_image envResized outputFilename 2048 1024).2.2 = Except.ok () ∧
    fsLookup (resize_image envResized outputFilename 2048 1024).2.1.fs outputFilename =
      some (Img.mk 2048 1024 "RGBA") :=
  C7_resize_idempotent_on_target_size envResized outputFilename
    (Img.mk 2048 1024 "RGBA") rfl rfl rfl

/-- C8 counterexample: the raw input `"Y"` is not the string `"y"`, yet the
program does not terminate without action — the batch operation runs (here it
creates the `./rgba` working folder).  The source lowercases and strips the
answer before comparing. -/
theorem C8_counterexample_capital_yes :
    "Y" ≠ "y" ∧ Ev.createFolder "./rgba" ∈ (ask_user envOk ["Y"]).1 := by
  constructor
  · decide
  · decide

/-- C8 (amended): any answer whose stripped, lowercased form is not `"y"`
terminates the program at once: only the goodbye message is printed, the
world is unchanged, and the batch operation is not invoked. -/
theorem C8_non_yes_answer_terminates (s : St) (answer : String)
    (rest : List String) (h : normalize_answer answer ≠ "y") :
    ask_user s (answer :: rest) = ([Ev.msg "프로그램이 종료되었습니다."], s) := by
  simp only [ask_user]
  rw [if_neg h]

/-- Witness for the amended C8 at the concrete answer `"n"`. -/
theorem C8_witness :
    ask_user envOk ["n"] = ([Ev.msg "프로그램이 종료되었습니다."], envOk) :=
  C8_non_yes_answer_terminates envOk "n" [] (by decide)

/-- C9 counterexample: with the answers `y`, `y`, `n` the batch operation
executes twice in one invocation — the trace holds one `오류:` message per
batch run — so the program re-offers the prompt after a completed batch
rather than terminating. -/
theorem C9_counterexample_two_runs :
    ask_user envNoKey ["y", "y", "n"] =
      ([Ev.msg "오류: OpenAI API 키가 .env 파일에서 찾을 수 없습니다.",
        Ev.msg "오류: OpenAI API 키가 .env 파일에서 찾을 수 없습니다.",
        Ev.msg "프로그램이 종료되었습니다."], envNoKey) := by
  rfl

/-- C9 (amended): the prompt loop runs the batch operation once per
consecutive leading `y` answer: after a `y` the batch executes and the loop
continues with the remaining answers; it terminates at the first non-`y`
answer. -/
theorem C9_batch_repeats_on_consecutive_yes (s : St) (answer : String)
    (rest : List String) (h : normalize_answer answer = "y") :
    ask_user s (answer :: rest) =
      ((image_processing s).1 ++ (ask_user (image_processing s).2 rest).1,
       (ask_user (image_processing s).2 rest).2) := by
  simp only [ask_user]
  rw [if_pos h]

/-- Witness for the amended C9 at the concrete answers `y`, `n`. -/
theorem C9_witness :
    ask_user envNoKey ["y", "n"] =
      ((image_processing envNoKey).1 ++
        (ask_user (image_processing envNoKey).2 ["n"]).1,
       (ask_user (image_processing envNoKey).2 ["n"]).2) :=
  C9_batch_repeats_on_consecutive_yes envNoKey "y" ["n"] (by decide)

/-- C10: when validation fails on the dimension check (credential present,
both files on disk), the working and destination folders already exist in the
state carried out of `validate_environment`, and the aborted run keeps that
state — the folder-creation side effect persists. -/
theorem C10_folders_persist_on_mismatch_abort (s : St) (si mi : Img)
    (hk : keyTruthy s.apiKey = true)
    (hs : fsLookup s.fs srcImagePath = some si)
    (hm : fsLookup s.fs maskImagePath = some mi)
    (hne : si.size ≠ mi.size) :
    (validate_environment s).2.2 =
      Except.error (Err.valueError "소스 이미지와 마스크 이미지의 해상도가 다릅니다.") ∧
    config.rgba_folder_path ∈ (validate_environment s).2.1.folders ∧
    config.dest_folder_path ∈ (validate_environment s).2.1.folders ∧
    (image_processing s).2 = (validate_environment s).2.1 := by
  have hv := validate_mismatch_eq s si mi hk hs hm hne
  refine ⟨by rw [hv], ?_, ?_, ?_⟩
  · rw [hv]
    exact caf_mem_mono _ _ _ (caf_mem_self _ _)
  · rw [hv]
    exact caf_mem_self _ _
  · simp only [image_processing, image_processing_body, hv]

/-- Witness for C10 at the concrete mismatched world. -/
theorem C10_witness :
    (validate_environment envMismatch).2.2 =
      Except.error (Err.valueError "소스 이미지와 마스크 이미지의 해상도가 다릅니다.") ∧
    config.rgba_folder_path ∈ (validate_environment envMismatch).2.1.folders ∧
    config.dest_folder_path ∈ (validate_environment envMismatch).2.1.folders ∧
    (image_processing envMismatch).2 = (validate_environment envMismatch).2.1 :=
  C10_folders_persist_on_mismatch_abort envMismatch okImg
    (Img.mk 256 256 "L") (by decide) (by decide) (by decide) (by decide)

end Outpaint
